import Mathlib

/-!
Verification of the airspace-viewer conversion pipeline.

Shallow embedding of the Python sources:
  app/utils/units.py, app/model/openair_types.py, app/utils/airspace_colors.py,
  app/utils/geojson_converter.py, app/utils/kml_converter.py,
  app/services/airspace_service.py.

Python floats are modelled as exact rationals (ℚ); Python `int(x)` is modelled
as truncation toward zero; `math.cos`/`math.sin`/`math.pi` are modelled as an
abstract `Trig` record of functions on ℚ (the double-precision `math` module is
one such record; the facts used about it, such as `cos 0 = 1`, hold exactly for
IEEE doubles).  Altitude values (`val`), which in Python may be `int`, `float`,
`str` or `None`, are modelled as `Option ℚ` (the numeric-or-missing subdomain;
no claim exercises string-valued altitudes).
-/

namespace AirspaceViewer

/-- Python `int(q)` on a rational: truncation toward zero. -/
def pyInt (q : ℚ) : ℤ :=
  if q < 0 then -⌊-q⌋ else ⌊q⌋

/-- app/utils/units.py: `feet_to_meters(feet) = float(feet) * 0.3048`. -/
def feet_to_meters (feet : ℚ) : ℚ := feet * (3048 / 10000)

/-- app/utils/units.py: `nautical_miles_to_meters(nm) = float(nm) * 1852`. -/
def nautical_miles_to_meters (nm : ℚ) : ℚ := nm * 1852

/-- app/model/openair_types.py: enum `AltitudeType`. -/
inductive AltitudeType where
  | GND
  | FEET_AMSL
  | FEET_AGL
  | FLIGHT_LEVEL
  | UNLIMITED
  | OTHER
  deriving DecidableEq, Repr

/-- app/model/openair_types.py: dataclass `Altitude` (val modelled as `Option ℚ`). -/
structure Altitude where
  type : AltitudeType
  val : Option ℚ := none
  deriving DecidableEq, Repr

/-- Rendering of a numeric-or-missing value, as Python string interpolation does. -/
def pyValText (v : Option ℚ) : String :=
  match v with
  | none => "None"
  | some q => toString q

/-- `Altitude.to_text`: the `val is None or val == ""` / failed-parse branches all
yield `meters = 0`; a numeric value is converted with `int(feet_to_meters(val))`. -/
def metersOfVal (v : Option ℚ) : ℤ :=
  match v with
  | none => 0
  | some q => pyInt (feet_to_meters q)

/-- app/model/openair_types.py: `Altitude.to_text`. -/
def Altitude.to_text (a : Altitude) : String :=
  match a.type with
  | .GND => "GND"
  | .FEET_AMSL => toString (metersOfVal a.val) ++ " m AMSL"
  | .FEET_AGL => toString (metersOfVal a.val) ++ " m AGL"
  | .FLIGHT_LEVEL => "FL " ++ pyValText a.val
  | .UNLIMITED => "Unlimited"
  | .OTHER => "?(" ++ pyValText a.val ++ ")"

/-- app/model/openair_types.py: a polygon segment (`Point | Arc | ArcSegment`).
Arc data is carried but never rendered, so its fields are not needed here. -/
inductive PolygonSegment where
  | point (lat lng : ℚ)
  | arc
  | arcSegment
  deriving DecidableEq, Repr

/-- app/model/openair_types.py: dataclass `PolygonGeometry` (post-init turns a
missing segment list into `[]`, so the model keeps a plain list). -/
structure PolygonGeometry where
  segments : List PolygonSegment := []
  deriving DecidableEq, Repr

/-- app/model/openair_types.py: dataclass `CircleGeometry`; `centerpoint` is a
`[lat, lng]` list (post-init default `[0.0, 0.0]`), radius in nautical miles. -/
structure CircleGeometry where
  centerpoint : List ℚ := [0, 0]
  radius : ℚ := 0
  deriving DecidableEq, Repr

/-- app/model/openair_types.py: `AirspaceGeometry = Union[PolygonGeometry, CircleGeometry]`. -/
inductive AirspaceGeometry where
  | polygonG (pg : PolygonGeometry)
  | circleG (cg : CircleGeometry)
  deriving DecidableEq, Repr

/-- app/model/openair_types.py: dataclass `Airspace` (post-init fills the bound
defaults, and `convert_raw_airspace` always passes explicit bounds, so the
bounds are modelled as non-optional). -/
structure Airspace where
  name : String := ""
  class_ : String := ""
  lower_bound : Altitude := ⟨.GND, none⟩
  upper_bound : Altitude := ⟨.UNLIMITED, none⟩
  geom : Option AirspaceGeometry := none
  deriving DecidableEq, Repr

/-- `Airspace.airspace_class` property. -/
def Airspace.airspace_class (a : Airspace) : String := a.class_

/-- Raw altitude data as handed to `parse_altitude`: a Python dict with optional
`type`/`val` keys, or any non-dict value. -/
inductive RawAltData where
  | dict (type? : Option String) (val : Option ℚ)
  | nondict
  deriving DecidableEq, Repr

/-- Raw segment data inside a raw geometry dict. -/
inductive RawSegData where
  | dict (type? : Option String) (lat : Option ℚ) (lng : Option ℚ)
  | nondict
  deriving DecidableEq, Repr

/-- Raw geometry data as handed to `parse_geometry`. -/
inductive RawGeomData where
  | dict (type? : Option String) (centerpoint : Option (List ℚ)) (radius : Option ℚ)
      (segments : Option (List RawSegData))
  | nondict
  deriving DecidableEq, Repr

/-- A raw parsed record (`mapping<string, any>`): each field is `none` when the
key is missing from the dict. -/
structure RawRecord where
  name : Option String := none
  class_ : Option String := none
  lowerBound : Option RawAltData := none
  upperBound : Option RawAltData := none
  geom : Option RawGeomData := none
  deriving DecidableEq, Repr

/-- `AltitudeType(alt_type_str)` with `ValueError → AltitudeType.OTHER`. -/
def altitudeTypeOfString (s : String) : AltitudeType :=
  if s = "Gnd" then .GND
  else if s = "FeetAmsl" then .FEET_AMSL
  else if s = "FeetAgl" then .FEET_AGL
  else if s = "FlightLevel" then .FLIGHT_LEVEL
  else if s = "Unlimited" then .UNLIMITED
  else if s = "Other" then .OTHER
  else .OTHER

/-- app/model/openair_types.py: `convert_raw_airspace.parse_altitude`.
A dict gets `type` defaulted to `"Gnd"`; a non-dict yields `Altitude(GND)`. -/
def parse_altitude (alt_data : RawAltData) : Altitude :=
  match alt_data with
  | .dict type? val => ⟨altitudeTypeOfString (type?.getD "Gnd"), val⟩
  | .nondict => ⟨.GND, none⟩

/-- app/model/openair_types.py: `convert_raw_airspace.parse_geometry`. -/
def parse_geometry (geom_data : RawGeomData) : AirspaceGeometry :=
  match geom_data with
  | .nondict => .polygonG ⟨[]⟩
  | .dict type? centerpoint radius segments =>
    if type?.getD "Polygon" = "Circle" then
      .circleG ⟨centerpoint.getD [0, 0], radius.getD 0⟩
    else
      .polygonG ⟨(segments.getD []).filterMap (fun seg =>
        match seg with
        | .dict stype? lat lng =>
          if stype?.getD "Point" = "Point" then
            some (.point (lat.getD 0) (lng.getD 0))
          else none
        | .nondict => none)⟩

/-- app/model/openair_types.py: `convert_raw_airspace` (missing keys fall back
to `{}` for the bounds and geometry, `""` for name and class). -/
def convert_raw_airspace (raw_data : RawRecord) : Airspace :=
  { name := raw_data.name.getD ""
    class_ := raw_data.class_.getD ""
    lower_bound := parse_altitude (raw_data.lowerBound.getD (.dict none none))
    upper_bound := parse_altitude (raw_data.upperBound.getD (.dict none none))
    geom := some (parse_geometry (raw_data.geom.getD (.dict none none none none))) }

/-! ## GeoJSON converter (app/utils/geojson_converter.py) -/

/-- Model of the relevant part of Python's `math` module: `cos`, `sin` and `pi`
as operations on (exact models of) floats.  Claims use only exact facts that
hold for IEEE doubles, such as `cos 0 = 1` and `sin 0 = 0`. -/
structure Trig where
  cos : ℚ → ℚ
  sin : ℚ → ℚ
  pi : ℚ

/-- `math.radians(x) = x * pi / 180`. -/
def Trig.radians (t : Trig) (x : ℚ) : ℚ := x * t.pi / 180

/-- app/utils/airspace_colors.py: `AIRSPACE_COLORS` lookup with `DEFAULT_COLOR`. -/
def get_airspace_color (airspace_class : String) : String :=
  if airspace_class = "A" then "#2196f3"
  else if airspace_class = "B" then "#00bcd4"
  else if airspace_class = "C" then "#3f51b5"
  else if airspace_class = "D" then "#9c27b0"
  else if airspace_class = "E" then "#e91e63"
  else if airspace_class = "CTR" then "#f44336"
  else if airspace_class = "Restricted" then "#ffc107"
  else if airspace_class = "Danger" then "#4caf50"
  else if airspace_class = "Prohibited" then "#ff5722"
  else if airspace_class = "GliderProhibited" then "#ff5722"
  else if airspace_class = "WaveWindow" then "#607d8b"
  else "#999999"

/-- A GeoJSON geometry as emitted by the converter: a single-ring polygon
(`coordinates = [ring]`) or a line string.  Coordinate pairs are `(lng, lat)`. -/
inductive GeoGeom where
  | polygon (ring : List (ℚ × ℚ))
  | lineString (coords : List (ℚ × ℚ))
  deriving DecidableEq, Repr

/-- The `properties` object of an emitted feature; `geometryType` is the extra
key set only for 2-point line obstacles. -/
structure FeatureProps where
  name : String
  class_ : String
  lowerBound : String
  upperBound : String
  description : String
  color : String
  geometryType : Option String := none
  deriving DecidableEq, Repr

/-- A GeoJSON feature; `geometry = none` models the `"geometry": None` state of
a feature that is dropped from the collection. -/
structure Feature where
  props : FeatureProps
  geometry : Option GeoGeom
  deriving DecidableEq, Repr

/-- A GeoJSON feature collection. -/
structure FeatureCollection where
  type : String
  features : List Feature
  deriving DecidableEq, Repr

/-- The coordinate points extracted from a polygon's segments: `Point` segments
become `[lng, lat]` pairs, `Arc`/`ArcSegment`/unknown segments are skipped. -/
def polyCoords (geom : PolygonGeometry) : List (ℚ × ℚ) :=
  geom.segments.filterMap (fun segment =>
    match segment with
    | .point lat lng => some (lng, lat)
    | .arc => none
    | .arcSegment => none)

/-- app/utils/geojson_converter.py: `_process_polygon_geometry`.  Returns the
geometry (or `none` for < 2 points) together with the updated feature
properties (the 2-point branch mutates `feature["properties"]`). -/
def _process_polygon_geometry (geom : PolygonGeometry) (props : FeatureProps) :
    Option GeoGeom × FeatureProps :=
  let coordinates := polyCoords geom
  if 2 < coordinates.length then
    let coordinates :=
      if coordinates.head? ≠ coordinates.getLast? then
        coordinates ++ [coordinates.headI]
      else coordinates
    (some (.polygon coordinates), props)
  else if coordinates.length = 2 then
    (some (.lineString coordinates),
      { props with
          geometryType := some "line"
          color := "#FF0000"
          description := props.description ++ " - Line Obstacle" })
  else
    (none, props)

/-- Extraction of `center_lat`/`center_lng` from a `centerpoint` list: an empty
list is falsy (both stay `None`), a one-element list raises `IndexError`
(modelled as `.error ()`), otherwise `[0]` is lat and `[1]` is lng. -/
def centerExtract (centerpoint : List ℚ) : Except Unit (Option (ℚ × ℚ)) :=
  match centerpoint with
  | [] => .ok none
  | [_] => .error ()
  | lat :: lng :: _ => .ok (some (lat, lng))

/-- The 36-point circle approximation loop: one vertex every 10 degrees
starting at 0, appended as `(lng, lat)`. -/
def circlePoints (t : Trig) (center_lat center_lng radius_deg : ℚ) : List (ℚ × ℚ) :=
  (List.range 36).map (fun (i : ℕ) =>
    let angle : ℚ := (i : ℚ) * 10 * t.pi / 180
    let lat := center_lat + radius_deg * t.cos angle
    let lng := center_lng + radius_deg * t.sin angle / t.cos (t.radians center_lat)
    (lng, lat))

/-- app/utils/geojson_converter.py: `_process_circle_geometry`.  A one-element
centerpoint list raises (propagated to the per-airspace handler); an invalid
circle yields `none`; otherwise the closed 36+1-point polygon ring. -/
def _process_circle_geometry (t : Trig) (geom : CircleGeometry) :
    Except Unit (Option GeoGeom) :=
  match centerExtract geom.centerpoint with
  | .error e => .error e
  | .ok none => .ok none
  | .ok (some (center_lat, center_lng)) =>
    if 0 < geom.radius then
      let radius_meters := nautical_miles_to_meters geom.radius
      let radius_deg := radius_meters / 111320
      let coordinates := circlePoints t center_lat center_lng radius_deg
      .ok (some (.polygon (coordinates ++ [coordinates.headI])))
    else
      .ok none

/-- app/utils/geojson_converter.py: `_create_geojson_feature`.  `.error` models
an exception escaping to the batch loop's per-airspace handler. -/
def _create_geojson_feature (t : Trig) (airspace : Airspace) : Except Unit Feature :=
  let props : FeatureProps :=
    { name := airspace.name
      class_ := airspace.airspace_class
      lowerBound := airspace.lower_bound.to_text
      upperBound := airspace.upper_bound.to_text
      description := airspace.name ++ " (" ++ airspace.airspace_class ++ ")"
      color := get_airspace_color airspace.airspace_class }
  match airspace.geom with
  | some (.polygonG pg) =>
    let (geometry, props) := _process_polygon_geometry pg props
    .ok ⟨props, geometry⟩
  | some (.circleG cg) =>
    match _process_circle_geometry t cg with
    | .error e => .error e
    | .ok geometry => .ok ⟨props, geometry⟩
  | none => .ok ⟨props, none⟩

/-- One iteration of the batch loop: `none` when the airspace is skipped
(either its conversion raised, or its geometry came out `None`). -/
def featureFilter (t : Trig) (airspace : Airspace) : Option Feature :=
  match _create_geojson_feature t airspace with
  | .error _ => none
  | .ok f => if f.geometry.isSome then some f else none

/-- app/utils/geojson_converter.py: `convert_airspace_to_geojson`. -/
def convert_airspace_to_geojson (t : Trig) (airspaces : List Airspace) :
    FeatureCollection :=
  ⟨"FeatureCollection", airspaces.filterMap (featureFilter t)⟩

/-! ## KML converter (app/utils/kml_converter.py) -/

/-- A KML polygon face as produced by the converter (`newpolygon` plus the
attributes the code sets on it). -/
structure KmlPoly where
  extrude : ℕ
  altitudemode : String
  color : String
  coords : List (ℚ × ℚ × ℚ)
  deriving DecidableEq, Repr

/-- The geometry a single airspace contributes to the KML document: a red line
string (2-point obstacle), a single extruded polygon, or a multi-geometry of
polygon faces. -/
inductive KmlGeomOut where
  | line (color : String) (coords : List (ℚ × ℚ))
  | polygon (p : KmlPoly)
  | multi (faces : List KmlPoly)
  deriving DecidableEq, Repr

/-- app/utils/kml_converter.py: `_to_float_safe` (on the numeric-or-missing
value model: `None → 0.0`, numbers unchanged). -/
def _to_float_safe (val : Option ℚ) : ℚ := val.getD 0

/-- app/utils/kml_converter.py: `_hex_to_kml_color`: `#RRGGBB`/`#AARRGGBB` to
`aabbggrr`; anything else falls back to opaque red. -/
def _hex_to_kml_color (hex_color : String) : String :=
  let cs := hex_color.toList.dropWhile (fun c => c = '#')
  if cs.length = 6 then
    let r := cs.take 2
    let g := (cs.drop 2).take 2
    let b := (cs.drop 4).take 2
    String.mk (['f', 'f'] ++ b ++ g ++ r)
  else if cs.length = 8 then
    let a := cs.take 2
    let r := (cs.drop 2).take 2
    let g := (cs.drop 4).take 2
    let b := cs.drop 6
    String.mk (a ++ b ++ g ++ r)
  else "ff0000ff"

/-- app/utils/kml_converter.py: `_altitude_to_kml`, returning
`(altitudeMode, meters)`. -/
def _altitude_to_kml (altitude : Altitude) : String × ℚ :=
  match altitude.type with
  | .GND => ("relativeToGround", 0)
  | .FEET_AMSL => ("absolute", feet_to_meters (_to_float_safe altitude.val))
  | .FEET_AGL => ("relativeToGround", feet_to_meters (_to_float_safe altitude.val))
  | .FLIGHT_LEVEL => ("absolute", feet_to_meters (_to_float_safe altitude.val * 100))
  | .UNLIMITED => ("absolute", 60000)
  | .OTHER => ("absolute", 0)

/-- app/utils/kml_converter.py: `_is_ground_lower` on an `Altitude` object. -/
def _is_ground_lower (altitude : Altitude) : Bool :=
  match altitude.type with
  | .GND => true
  | .FEET_AGL => decide (_to_float_safe altitude.val ≤ 0)
  | _ => false

/-- app/utils/kml_converter.py: `_ring_with_altitude`. -/
def _ring_with_altitude (ring2d : List (ℚ × ℚ)) (altitude_m : ℚ) :
    List (ℚ × ℚ × ℚ) :=
  ring2d.map (fun p => (p.1, p.2, altitude_m))

/-- app/utils/kml_converter.py: `_iter_edges`: consecutive pairs of the ring. -/
def _iter_edges (ring2d : List (ℚ × ℚ)) : List ((ℚ × ℚ) × (ℚ × ℚ)) :=
  ring2d.zip ring2d.tail

/-- The 2D ring extracted from the polygon's segments (`(lng, lat)` pairs from
`Point` segments, arcs skipped) — the `ring2d` local of `_add_kml_polygon_3d`
before closing. -/
def kmlRing2d (geom : PolygonGeometry) : List (ℚ × ℚ) :=
  geom.segments.filterMap (fun segment =>
    match segment with
    | .point lat lng => some (lng, lat)
    | .arc => none
    | .arcSegment => none)

/-- Ring closing as in `_add_kml_polygon_3d`: with at least 3 points and first
point distinct from last, the first point is appended. -/
def ringClose (ring2d : List (ℚ × ℚ)) : List (ℚ × ℚ) :=
  if 3 ≤ ring2d.length ∧ ring2d.head? ≠ ring2d.getLast? then
    ring2d ++ [ring2d.headI]
  else ring2d

/-- The wall quad for one edge: a 4-corner rectangle between the lower and
upper altitude, closed back onto its first coordinate. -/
def wallQuad (upper_mode color : String) (lower_m upper_m : ℚ)
    (edge : (ℚ × ℚ) × (ℚ × ℚ)) : KmlPoly :=
  let lon1 := edge.1.1
  let lat1 := edge.1.2
  let lon2 := edge.2.1
  let lat2 := edge.2.2
  ⟨0, upper_mode, color,
    [(lon1, lat1, lower_m), (lon2, lat2, lower_m), (lon2, lat2, upper_m),
     (lon1, lat1, upper_m), (lon1, lat1, lower_m)]⟩

/-- app/utils/kml_converter.py: `_add_kml_polygon_3d`.  Returns the geometry
added to the document for this airspace, `none` when it is skipped
(insufficient points). -/
def _add_kml_polygon_3d (airspace : Airspace) (geom : PolygonGeometry)
    (color : String) : Option KmlGeomOut :=
  let ring2d := kmlRing2d geom
  if ring2d.length < 2 then none
  else
    let ring2d := ringClose ring2d
    let lowerKml := _altitude_to_kml airspace.lower_bound
    let upperKml := _altitude_to_kml airspace.upper_bound
    if ring2d.length = 2 then
      some (.line (_hex_to_kml_color "#FF0000") ring2d)
    else if _is_ground_lower airspace.lower_bound then
      some (.polygon
        ⟨1, upperKml.1, _hex_to_kml_color color,
          _ring_with_altitude ring2d upperKml.2⟩)
    else
      let top : KmlPoly :=
        ⟨0, upperKml.1, _hex_to_kml_color color,
          _ring_with_altitude ring2d upperKml.2⟩
      let bottom : KmlPoly :=
        ⟨0, lowerKml.1, _hex_to_kml_color color,
          _ring_with_altitude ring2d lowerKml.2⟩
      let walls := (_iter_edges ring2d).map
        (wallQuad upperKml.1 (_hex_to_kml_color color) lowerKml.2 upperKml.2)
      some (.multi (top :: bottom :: walls))

/-! ## Airspace service (app/services/airspace_service.py) -/

/-- The mutable slot of `AirspaceService`. -/
structure ServiceState where
  cachedAirspaces : Option (List Airspace)
  cachedGeojson : Option FeatureCollection
  currentFilename : Option String
  deriving DecidableEq, Repr

/-- The freshly constructed service: all three fields `None`. -/
def ServiceState.initial : ServiceState := ⟨none, none, none⟩

/-- The service's environment: the trig model used by the GeoJSON converter,
the default airspace path, `os.path.exists` and the external OpenAir parser
(`parse_file`, which may raise — modelled as `Except`). -/
structure Env where
  trig : Trig
  defaultPath : String
  pathExists : String → Bool
  parseFile : String → Except String (List RawRecord)

/-- The empty well-formed feature collection written on load failure. -/
def emptyFC : FeatureCollection := ⟨"FeatureCollection", []⟩

/-- `AirspaceService.load_airspace_data`, fuelled: the only recursive call
passes `filepath = None`, i.e. the default path, and at the default path the
retry branch is not taken, so the recursion depth is at most 1 and fuel 2 is
exact.  Returns the new state and the `(airspaces, geojson)` pair returned to
the caller. -/
def loadAirspaceDataFuel :
    ℕ → Env → ServiceState → Option String →
    ServiceState × (Option (List Airspace) × Option FeatureCollection)
  | 0, _, st, _ => (st, (st.cachedAirspaces, st.cachedGeojson))
  | fuel + 1, env, st, filepath? =>
    let filepath := filepath?.getD env.defaultPath
    if (st.cachedAirspaces.isNone ∨ st.currentFilename ≠ some filepath) ∧
        env.pathExists filepath = true then
      match env.parseFile filepath with
      | .ok raw_airspaces =>
        let airspaces := raw_airspaces.map convert_raw_airspace
        let geojson := convert_airspace_to_geojson env.trig airspaces
        (⟨some airspaces, some geojson, some filepath⟩, (some airspaces, some geojson))
      | .error _ =>
        (⟨some [], some emptyFC, none⟩, (some [], some emptyFC))
    else if env.pathExists filepath = false then
      if filepath ≠ env.defaultPath then
        loadAirspaceDataFuel fuel env st none
      else (st, (st.cachedAirspaces, st.cachedGeojson))
    else (st, (st.cachedAirspaces, st.cachedGeojson))

/-- app/services/airspace_service.py: `load_airspace_data`. -/
def load_airspace_data (env : Env) (st : ServiceState) (filepath? : Option String) :
    ServiceState × (Option (List Airspace) × Option FeatureCollection) :=
  loadAirspaceDataFuel 2 env st filepath?

/-- app/services/airspace_service.py: `load_from_uploaded_file`.  Returns the
new state and the `(success, error_message)` pair. -/
def load_from_uploaded_file (env : Env) (st : ServiceState)
    (filepath original_filename : String) : ServiceState × (Bool × Option String) :=
  match env.parseFile filepath with
  | .ok raw_airspaces =>
    let airspaces := raw_airspaces.map convert_raw_airspace
    let geojson := convert_airspace_to_geojson env.trig airspaces
    (⟨some airspaces, some geojson, some original_filename⟩, (true, none))
  | .error e => (st, (false, some e))

/-- app/services/airspace_service.py: `reset_to_default`. -/
def reset_to_default (_st : ServiceState) : ServiceState := ⟨none, none, none⟩

/-- app/services/airspace_service.py: `get_cached_data`: returns the cached
pair when both parts are present, otherwise loads (default path). -/
def get_cached_data (env : Env) (st : ServiceState) :
    ServiceState × (Option (List Airspace) × Option FeatureCollection) :=
  match st.cachedAirspaces, st.cachedGeojson with
  | some airspaces, some geojson => (st, (some airspaces, some geojson))
  | _, _ => load_airspace_data env st none

/-- The statistics record returned by `get_airspace_stats`; `classes` is the
insertion-ordered dict, as an association list. -/
structure Stats where
  total_airspaces : ℕ
  classes : List (String × ℕ)
  deriving DecidableEq, Repr

/-- One step of the counting loop:
`class_counts[c] = class_counts.get(c, 0) + 1` on an insertion-ordered dict. -/
def bumpClass : List (String × ℕ) → String → List (String × ℕ)
  | [], c => [(c, 1)]
  | (k, n) :: rest, c =>
    if k = c then (k, n + 1) :: rest else (k, n) :: bumpClass rest c

/-- The per-class counting loop of `get_airspace_stats`. -/
def countClasses (classes : List String) : List (String × ℕ) :=
  classes.foldl bumpClass []

/-- app/services/airspace_service.py: `get_airspace_stats`. -/
def get_airspace_stats (env : Env) (st : ServiceState) : ServiceState × Stats :=
  let r := get_cached_data env st
  match r.2.1 with
  | none => (r.1, ⟨0, []⟩)
  | some airspaces =>
    (r.1, ⟨airspaces.length, countClasses (airspaces.map Airspace.airspace_class)⟩)

/-! ## Concrete instances used in witnesses and counterexamples -/

/-- A concrete member of the `Trig` family: constant functions.  It satisfies
`cos 0 = 1` and `sin 0 = 0`, the only facts about `math.cos`/`math.sin` that
the claims below use (both hold exactly for IEEE doubles). -/
def exTrig : Trig := ⟨fun _ => 1, fun _ => 0, 3⟩

/-- Environment whose parser always succeeds with one empty raw record. -/
def exEnv : Env := ⟨exTrig, "default.txt", fun _ => true, fun _ => .ok [{}]⟩

/-- Environment whose parser always raises. -/
def exFailEnv : Env := ⟨exTrig, "default.txt", fun _ => true, fun _ => .error "parse error"⟩

/-- A service state already holding data for the file `"prior.txt"`. -/
def exLoadedState : ServiceState := ⟨some [{}], some emptyFC, some "prior.txt"⟩

/-- A triangle (three distinct points, ring not yet closed). -/
def exTriangle : PolygonGeometry := ⟨[.point 0 0, .point 0 1, .point 1 1]⟩

/-- Triangle airspace with a ground lower bound and `FeetAMSL 1000` upper. -/
def exGroundAirspace : Airspace :=
  { name := "G", class_ := "A", lower_bound := ⟨.GND, none⟩,
    upper_bound := ⟨.FEET_AMSL, some 1000⟩, geom := some (.polygonG exTriangle) }

/-- Triangle airspace elevated between `FeetAMSL 500` and `FeetAMSL 1000`. -/
def exElevatedAirspace : Airspace :=
  { name := "E", class_ := "A", lower_bound := ⟨.FEET_AMSL, some 500⟩,
    upper_bound := ⟨.FEET_AMSL, some 1000⟩, geom := some (.polygonG exTriangle) }

/-- A two-point "polygon" (a line obstacle such as a cable). -/
def exLineAirspace : Airspace :=
  { name := "Cable", class_ := "Q", geom := some (.polygonG ⟨[.point 1 2, .point 3 4]⟩) }

/-- The first vertex of the polygon ring produced by a circle conversion. -/
def firstVertex (r : Except Unit (Option GeoGeom)) : Option (ℚ × ℚ) :=
  match r with
  | .ok (some (.polygon ring)) => ring.head?
  | _ => none

/-! ## Helper lemmas -/

theorem ringClose_length_le (r : List (ℚ × ℚ)) : r.length ≤ (ringClose r).length := by
  unfold ringClose
  split <;> simp

theorem bumpClass_snd_sum (m : List (String × ℕ)) (c : String) :
    ((bumpClass m c).map Prod.snd).sum = (m.map Prod.snd).sum + 1 := by
  induction m with
  | nil => simp [bumpClass]
  | cons hd tl ih =>
    obtain ⟨k, n⟩ := hd
    by_cases h : k = c
    · simp [bumpClass, h]
      omega
    · simp [bumpClass, h, ih]
      omega

theorem bumpClass_fst_mem (m : List (String × ℕ)) (c k : String)
    (h : k ∈ (bumpClass m c).map Prod.fst) : k = c ∨ k ∈ m.map Prod.fst := by
  induction m with
  | nil => simp [bumpClass] at h; simp [h]
  | cons hd tl ih =>
    obtain ⟨k0, n0⟩ := hd
    by_cases hk : k0 = c
    · simp [bumpClass, hk] at h
      rcases h with h | h
      · exact .inl h
      · exact .inr (by simp [h])
    · simp [bumpClass, hk] at h
      rcases h with h | h
      · exact .inr (by simp [h])
      · rcases ih (by simpa using h) with h' | h'
        · exact .inl h'
        · exact .inr (by simp [h'])

theorem foldl_bumpClass_sum (cs : List String) :
    ∀ m : List (String × ℕ),
      ((cs.foldl bumpClass m).map Prod.snd).sum = (m.map Prod.snd).sum + cs.length := by
  induction cs with
  | nil => intro m; simp
  | cons c cs ih =>
    intro m
    simp only [List.foldl_cons, ih, bumpClass_snd_sum, List.length_cons]
    omega

theorem foldl_bumpClass_keys (cs : List String) :
    ∀ (m : List (String × ℕ)) (k : String),
      k ∈ (cs.foldl bumpClass m).map Prod.fst → k ∈ m.map Prod.fst ∨ k ∈ cs := by
  induction cs with
  | nil => intro m k h; exact .inl (by simpa using h)
  | cons c cs ih =>
    intro m k h
    rcases ih (bumpClass m c) k h with h' | h'
    · rcases bumpClass_fst_mem m c k h' with h'' | h''
      · exact .inr (by simp [h''])
      · exact .inl h''
    · exact .inr (by simp [h'])

theorem circlePoints_length (t : Trig) (clat clng r : ℚ) :
    (circlePoints t clat clng r).length = 36 := by
  simp [circlePoints]

theorem circlePoints_head (t : Trig) (clat clng r : ℚ)
    (hcos : t.cos 0 = 1) (hsin : t.sin 0 = 0) :
    (circlePoints t clat clng r).head? = some (clng, clat + r) := by
  unfold circlePoints
  rw [List.range_succ_eq_map 35, List.map_cons, List.head?_cons]
  have hangle : ((0 : ℕ) : ℚ) * 10 * t.pi / 180 = 0 := by
    push_cast
    ring
  rw [hangle]
  simp [hsin, hcos]

theorem circlePoints_ne_nil (t : Trig) (clat clng r : ℚ) :
    circlePoints t clat clng r ≠ [] := by
  intro h
  have := circlePoints_length t clat clng r
  rw [h] at this
  simp at this

theorem head?_append_left {α : Type} (l l' : List α) (a : α)
    (h : l.head? = some a) : (l ++ l').head? = some a := by
  cases l with
  | nil => simp at h
  | cons x xs => simpa using h

theorem headI_of_head? {α : Type} [Inhabited α] (l : List α) (a : α)
    (h : l.head? = some a) : l.headI = a := by
  cases l with
  | nil => simp at h
  | cons x xs => simpa using h

theorem metersOfVal_1000 : metersOfVal (some 1000) = 304 := by
  simp only [metersOfVal, pyInt, feet_to_meters]
  rw [if_neg (by norm_num)]
  rw [Int.floor_eq_iff]
  constructor <;> norm_num

/-! ## Claim theorems -/

/-- C1 counterexample: `Altitude(FeetAMSL, 1000).to_text()` renders
`"304 m AMSL"`, not the claimed `"305 m AMSL"`: the code applies Python
`int(...)` (truncation toward zero) to `1000 × 0.3048 = 304.8`, not rounding. -/
theorem c1_counterexample :
    (Altitude.mk .FEET_AMSL (some 1000)).to_text = "304 m AMSL" ∧
    (Altitude.mk .FEET_AMSL (some 1000)).to_text ≠ "305 m AMSL" := by
  have htext : (Altitude.mk .FEET_AMSL (some 1000)).to_text =
      toString (metersOfVal (some 1000)) ++ " m AMSL" := rfl
  rw [htext, metersOfVal_1000]
  exact ⟨by decide, by decide⟩

/-- C1 (amended): for every FeetAMSL/FeetAGL altitude with numeric value `f`,
the rendered meters figure is `int(f × 0.3048)`, i.e. `f × 0.3048` truncated
toward zero (not rounded); in particular 1000 ft renders as `"304 m AMSL"`. -/
theorem c1_to_text_truncates (f : ℚ) :
    (Altitude.mk .FEET_AMSL (some f)).to_text =
      toString (pyInt (f * (3048 / 10000))) ++ " m AMSL" ∧
    (Altitude.mk .FEET_AGL (some f)).to_text =
      toString (pyInt (f * (3048 / 10000))) ++ " m AGL" ∧
    (Altitude.mk .FEET_AMSL (some 1000)).to_text = "304 m AMSL" := by
  refine ⟨rfl, rfl, ?_⟩
  have htext : (Altitude.mk .FEET_AMSL (some 1000)).to_text =
      toString (metersOfVal (some 1000)) ++ " m AMSL" := rfl
  rw [htext, metersOfVal_1000]
  decide

/-- C3 counterexample: a raw record with a missing (or empty) `upperBound`
mapping converts to an upper bound of type Ground, not the claimed Unlimited,
because `parse_altitude` defaults a missing `type` string to `"Gnd"` (not to
`Other`) and always returns an altitude, so the dataclass default is unused. -/
theorem c3_counterexample :
    (convert_raw_airspace ⟨none, none, none, none, none⟩).upper_bound =
      ⟨.GND, none⟩ ∧
    (convert_raw_airspace ⟨none, none, none, none, none⟩).upper_bound.type ≠
      .UNLIMITED ∧
    (parse_altitude (.dict none none)).type ≠ .OTHER := by
  refine ⟨rfl, by decide, by decide⟩

/-- C3 (amended): an unknown `type` string maps to `Other`, but a missing
`type` string defaults to `"Gnd"` and maps to Ground; a raw record whose
`upperBound` mapping is missing or empty yields an upper bound of Ground (the
dataclass default Unlimited is never reached), and a missing `lowerBound`
yields Ground. -/
theorem c3_altitude_defaults :
    (∀ (s : String) (v : Option ℚ),
      s ∉ ["Gnd", "FeetAmsl", "FeetAgl", "FlightLevel", "Unlimited", "Other"] →
      (parse_altitude (.dict (some s) v)).type = .OTHER) ∧
    (∀ v : Option ℚ, parse_altitude (.dict none v) = ⟨.GND, v⟩) ∧
    (∀ r : RawRecord, r.upperBound = none →
      (convert_raw_airspace r).upper_bound = ⟨.GND, none⟩) ∧
    (∀ r : RawRecord, r.upperBound = some (.dict none none) →
      (convert_raw_airspace r).upper_bound = ⟨.GND, none⟩) ∧
    (∀ r : RawRecord, r.lowerBound = none →
      (convert_raw_airspace r).lower_bound = ⟨.GND, none⟩) := by
  refine ⟨?_, ?_, ?_, ?_, ?_⟩
  · intro s v h
    simp only [List.mem_cons, List.not_mem_nil, or_false, not_or] at h
    obtain ⟨h1, h2, h3, h4, h5, h6⟩ := h
    simp [parse_altitude, altitudeTypeOfString, h1, h2, h3, h4, h5, h6]
  · intro v; rfl
  · intro r h; simp [convert_raw_airspace, h, parse_altitude, altitudeTypeOfString]
  · intro r h; simp [convert_raw_airspace, h, parse_altitude, altitudeTypeOfString]
  · intro r h; simp [convert_raw_airspace, h, parse_altitude, altitudeTypeOfString]

/-- C3 witness: the amended theorem applied to the unknown type string
`"Bogus"` and to the all-missing raw record. -/
theorem c3_altitude_defaults_witness :
    (parse_altitude (.dict (some "Bogus") none)).type = .OTHER ∧
    (convert_raw_airspace ⟨none, none, none, none, none⟩).upper_bound =
      ⟨.GND, none⟩ ∧
    (convert_raw_airspace ⟨none, none, none, none, none⟩).lower_bound =
      ⟨.GND, none⟩ :=
  ⟨c3_altitude_defaults.1 "Bogus" none (by decide),
   c3_altitude_defaults.2.2.1 ⟨none, none, none, none, none⟩ rfl,
   c3_altitude_defaults.2.2.2.2 ⟨none, none, none, none, none⟩ rfl⟩

/-- C2 counterexample: with an empty cache, `get_airspace_stats` does trigger a
file load as a side effect — the parser runs on the default path, the slot is
repopulated, and the returned total is 1, not 0. -/
theorem c2_counterexample :
    (get_airspace_stats exEnv ServiceState.initial).2.total_airspaces = 1 ∧
    (get_airspace_stats exEnv ServiceState.initial).2 ≠ ⟨0, []⟩ ∧
    (get_airspace_stats exEnv ServiceState.initial).1 ≠ ServiceState.initial := by
  refine ⟨by decide, by decide, by decide⟩

/-- C2 (amended): `stats()` returns the total count and per-class counts over
the data handed back by `get_cached_data`; when both cache parts are present
it never loads (the slot is unchanged) and counts the cached collection, but
with an empty cache it lazily loads the default file first, so the slot may
change and the total reflects the loaded data; total 0 and an empty mapping
are returned only when that load yields nothing. -/
theorem c2_stats_over_cache (env : Env) (st : ServiceState) :
    (∀ A G, st.cachedAirspaces = some A → st.cachedGeojson = some G →
      get_airspace_stats env st =
        (st, ⟨A.length, countClasses (A.map Airspace.airspace_class)⟩)) ∧
    (get_airspace_stats env st).1 = (get_cached_data env st).1 ∧
    (get_airspace_stats env st).2 =
      (match (get_cached_data env st).2.1 with
       | none => ⟨0, []⟩
       | some xs => ⟨xs.length, countClasses (xs.map Airspace.airspace_class)⟩) := by
  refine ⟨?_, ?_, ?_⟩
  · intro A G hA hG
    simp [get_airspace_stats, get_cached_data, hA, hG]
  · cases h : (get_cached_data env st).2.1 <;> simp [get_airspace_stats, h]
  · cases h : (get_cached_data env st).2.1 <;> simp [get_airspace_stats, h]

/-- C2 witness: the amended theorem applied to a state whose slot holds an
empty collection: stats is `(0, {})` and the slot is untouched. -/
theorem c2_stats_over_cache_witness :
    get_airspace_stats exEnv ⟨some [], some emptyFC, none⟩ =
      (⟨some [], some emptyFC, none⟩, ⟨0, []⟩) :=
  (c2_stats_over_cache exEnv ⟨some [], some emptyFC, none⟩).1 [] emptyFC rfl rfl

/-- C10: the result of `get_airspace_stats` is internally consistent: the
returned total equals the sum of the per-class counts, and every key of the
classes mapping is the class of at least one airspace in the collection the
statistics were computed over. -/
theorem c10_stats_consistent (env : Env) (st : ServiceState) :
    (((get_airspace_stats env st).2.classes.map Prod.snd).sum =
      (get_airspace_stats env st).2.total_airspaces) ∧
    ∀ p ∈ (get_airspace_stats env st).2.classes,
      ∃ xs, (get_cached_data env st).2.1 = some xs ∧
        p.1 ∈ xs.map Airspace.airspace_class := by
  cases h : (get_cached_data env st).2.1 with
  | none =>
    constructor
    · simp [get_airspace_stats, h]
    · intro p hp
      simp [get_airspace_stats, h, Stats.classes] at hp
  | some xs =>
    constructor
    · simp only [get_airspace_stats, h]
      rw [show countClasses (xs.map Airspace.airspace_class) =
            (xs.map Airspace.airspace_class).foldl bumpClass [] from rfl]
      rw [foldl_bumpClass_sum]
      simp
    · intro p hp
      refine ⟨xs, rfl, ?_⟩
      simp only [get_airspace_stats, h] at hp
      have := foldl_bumpClass_keys (xs.map Airspace.airspace_class) [] p.1
        (by
          rw [show countClasses (xs.map Airspace.airspace_class) =
                (xs.map Airspace.airspace_class).foldl bumpClass [] from rfl] at hp
          exact List.mem_map_of_mem Prod.fst hp)
      rcases this with h' | h'
      · simp at h'
      · exact h'

/-- C10 witness: the consistency theorem applied to the loaded-by-stats
state of the example environment, at the key `("", 1)`. -/
theorem c10_stats_consistent_witness :
    ∃ xs, (get_cached_data exEnv ServiceState.initial).2.1 = some xs ∧
      ("" : String) ∈ xs.map Airspace.airspace_class :=
  (c10_stats_consistent exEnv ServiceState.initial).2 ("", 1) (by decide)

/-- C6: when the parser raises on an uploaded file, `load_from_uploaded_file`
returns `(False, errorMessage)` and the whole slot (airspaces, GeoJSON and
filename) is unchanged; when `load` attempts an existing file and the parser
raises, the slot is replaced by an empty airspace list and an empty
well-formed FeatureCollection (and the call returns them instead of raising). -/
theorem c6_failure_policies :
    (∀ (env : Env) (st : ServiceState) (fp nm e : String),
      env.parseFile fp = .error e →
      load_from_uploaded_file env st fp nm = (st, (false, some e))) ∧
    (∀ (env : Env) (st : ServiceState) (fp e : String),
      env.pathExists fp = true →
      (st.cachedAirspaces.isNone ∨ st.currentFilename ≠ some fp) →
      env.parseFile fp = .error e →
      load_airspace_data env st (some fp) =
        (⟨some [], some emptyFC, none⟩, (some [], some emptyFC))) := by
  constructor
  · intro env st fp nm e h
    simp [load_from_uploaded_file, h]
  · intro env st fp e hex hcache h
    rcases hcache with hN | hne
    · have hnone : st.cachedAirspaces = none := Option.isNone_iff_eq_none.mp hN
      simp [load_airspace_data, loadAirspaceDataFuel, hex, h, hnone]
    · simp [load_airspace_data, loadAirspaceDataFuel, hex, h, hne]

/-- C6 witness: both failure policies at a concrete always-failing parser and
a state already holding data for another file. -/
theorem c6_failure_policies_witness :
    load_from_uploaded_file exFailEnv exLoadedState "up.txt" "up" =
      (exLoadedState, (false, some "parse error")) ∧
    load_airspace_data exFailEnv exLoadedState (some "new.txt") =
      (⟨some [], some emptyFC, none⟩, (some [], some emptyFC)) :=
  ⟨c6_failure_policies.1 exFailEnv exLoadedState "up.txt" "up" "parse error" rfl,
   c6_failure_policies.2 exFailEnv exLoadedState "new.txt" "parse error" rfl
     (by decide) rfl⟩

/-- C7: the GeoJSON projector is total and per-airspace fault isolated: the
result is always a FeatureCollection, the features are exactly the per-item
results in source order (`filterMap`), converting a concatenation converts
each part independently, and an airspace whose conversion is skipped
contributes no feature or placeholder. -/
theorem c7_projector_total (t : Trig) (xs ys : List Airspace) (a : Airspace) :
    (convert_airspace_to_geojson t xs).type = "FeatureCollection" ∧
    (convert_airspace_to_geojson t xs).features = xs.filterMap (featureFilter t) ∧
    (convert_airspace_to_geojson t (xs ++ ys)).features =
      (convert_airspace_to_geojson t xs).features ++
        (convert_airspace_to_geojson t ys).features ∧
    (featureFilter t a = none →
      (convert_airspace_to_geojson t (xs ++ a :: ys)).features =
        (convert_airspace_to_geojson t (xs ++ ys)).features) := by
  refine ⟨rfl, rfl, ?_, ?_⟩
  · simp [convert_airspace_to_geojson]
  · intro h
    simp [convert_airspace_to_geojson, h]

/-- C7 witness: dropping the default (empty-geometry) airspace from a batch
leaves the batch output unchanged. -/
theorem c7_projector_total_witness :
    (convert_airspace_to_geojson exTrig ([] ++ ({} : Airspace) :: [])).features =
      (convert_airspace_to_geojson exTrig ([] ++ [])).features :=
  (c7_projector_total exTrig [] [] {}).2.2.2 (by decide)

/-- C8: calling `load` on a path whose data the slot already holds returns the
cached objects unchanged without touching the slot, and the result does not
depend on the parser at all (no reparse). -/
theorem c8_load_memoized (env : Env) (st : ServiceState) (p : String)
    (A : List Airspace) (G : FeatureCollection)
    (hex : env.pathExists p = true)
    (hA : st.cachedAirspaces = some A)
    (hG : st.cachedGeojson = some G)
    (hp : st.currentFilename = some p) :
    load_airspace_data env st (some p) = (st, (some A, some G)) ∧
    ∀ pf : String → Except String (List RawRecord),
      load_airspace_data ⟨env.trig, env.defaultPath, env.pathExists, pf⟩ st (some p) =
        (st, (some A, some G)) := by
  constructor
  · simp [load_airspace_data, loadAirspaceDataFuel, hex, hA, hG, hp]
  · intro pf
    simp [load_airspace_data, loadAirspaceDataFuel, hex, hA, hG, hp]

/-- C8 witness: the memoization theorem at the loaded example state, its own
path, and in particular a parser that would raise if it were consulted. -/
theorem c8_load_memoized_witness :
    load_airspace_data exEnv exLoadedState (some "prior.txt") =
      (exLoadedState, (some [{}], some emptyFC)) ∧
    load_airspace_data
        ⟨exTrig, "default.txt", fun _ => true, fun _ => .error "must not parse"⟩
        exLoadedState (some "prior.txt") =
      (exLoadedState, (some [{}], some emptyFC)) :=
  ⟨(c8_load_memoized exEnv exLoadedState "prior.txt" [{}] emptyFC rfl rfl rfl rfl).1,
   (c8_load_memoized exEnv exLoadedState "prior.txt" [{}] emptyFC rfl rfl rfl rfl).2
     (fun _ => .error "must not parse")⟩

/-- C9: an airspace whose polygon geometry yields exactly two coordinate
points is emitted as a LineString feature with color `#FF0000`, description
ending in `" - Line Obstacle"`, and the extra `geometryType = "line"`
property. -/
theorem c9_line_obstacle (t : Trig) (a : Airspace) (pg : PolygonGeometry)
    (hg : a.geom = some (.polygonG pg))
    (h2 : (polyCoords pg).length = 2) :
    featureFilter t a = some
      ⟨{ name := a.name
         class_ := a.class_
         lowerBound := a.lower_bound.to_text
         upperBound := a.upper_bound.to_text
         description := a.name ++ " (" ++ a.class_ ++ ")" ++ " - Line Obstacle"
         color := "#FF0000"
         geometryType := some "line" },
       some (.lineString (polyCoords pg))⟩ := by
  have hlt : ¬(2 < (polyCoords pg).length) := by omega
  simp [featureFilter, _create_geojson_feature, hg, _process_polygon_geometry,
    Airspace.airspace_class, hlt, h2]

/-- C9 witness: the two-point cable airspace produces exactly that line
obstacle feature. -/
theorem c9_line_obstacle_witness :
    featureFilter exTrig exLineAirspace = some
      ⟨{ name := exLineAirspace.name
         class_ := exLineAirspace.class_
         lowerBound := exLineAirspace.lower_bound.to_text
         upperBound := exLineAirspace.upper_bound.to_text
         description := exLineAirspace.name ++ " (" ++ exLineAirspace.class_ ++ ")"
           ++ " - Line Obstacle"
         color := "#FF0000"
         geometryType := some "line" },
       some (.lineString (polyCoords ⟨[.point 1 2, .point 3 4]⟩))⟩ :=
  c9_line_obstacle exTrig exLineAirspace ⟨[.point 1 2, .point 3 4]⟩ rfl (by decide)

/-- C5: for a polygon airspace with at least 3 points, the KML projector
emits, when the lower bound touches ground, exactly one polygon geometry with
`extrude = 1` placed at the upper altitude/mode; otherwise a multi-geometry
with exactly `2 + E` polygon faces, where `E` is the number of edges of the
closed ring: a top face, a bottom face, and one 4-point closed wall quad per
edge. -/
theorem c5_kml_polygon_3d (a : Airspace) (pg : PolygonGeometry) (color : String)
    (h3 : 3 ≤ (kmlRing2d pg).length) :
    (_is_ground_lower a.lower_bound = true →
      _add_kml_polygon_3d a pg color = some (.polygon
        ⟨1, (_altitude_to_kml a.upper_bound).1, _hex_to_kml_color color,
          _ring_with_altitude (ringClose (kmlRing2d pg))
            (_altitude_to_kml a.upper_bound).2⟩)) ∧
    (_is_ground_lower a.lower_bound = false →
      ∃ faces, _add_kml_polygon_3d a pg color = some (.multi faces) ∧
        faces.length = 2 + (_iter_edges (ringClose (kmlRing2d pg))).length ∧
        ∀ w ∈ faces.drop 2,
          w.coords.length = 5 ∧ w.coords.head? = w.coords.getLast?) := by
  have hlen : ¬((kmlRing2d pg).length < 2) := by omega
  have hclosed : 3 ≤ (ringClose (kmlRing2d pg)).length :=
    le_trans h3 (ringClose_length_le _)
  have hne2 : ¬((ringClose (kmlRing2d pg)).length = 2) := by omega
  constructor
  · intro hg
    simp only [_add_kml_polygon_3d]
    rw [if_neg hlen, if_neg hne2, if_pos hg]
  · intro hg
    refine ⟨⟨0, (_altitude_to_kml a.upper_bound).1, _hex_to_kml_color color,
        _ring_with_altitude (ringClose (kmlRing2d pg))
          (_altitude_to_kml a.upper_bound).2⟩ ::
      ⟨0, (_altitude_to_kml a.lower_bound).1, _hex_to_kml_color color,
        _ring_with_altitude (ringClose (kmlRing2d pg))
          (_altitude_to_kml a.lower_bound).2⟩ ::
      (_iter_edges (ringClose (kmlRing2d pg))).map
        (wallQuad (_altitude_to_kml a.upper_bound).1 (_hex_to_kml_color color)
          (_altitude_to_kml a.lower_bound).2 (_altitude_to_kml a.upper_bound).2),
      ?_, ?_, ?_⟩
    · simp only [_add_kml_polygon_3d]
      rw [if_neg hlen, if_neg hne2, if_neg (by simp [hg])]
    · simp
      omega
    · intro w hw
      simp only [List.drop_succ_cons, List.drop_zero, List.mem_map] at hw
      obtain ⟨e, _, he⟩ := hw
      subst he
      exact ⟨rfl, rfl⟩

/-- C5 witness: the theorem applied to the triangle airspaces: the
ground-touching one yields the single extruded polygon, the elevated one a
multi-geometry with `2 + 3` faces of closed 5-coordinate wall quads. -/
theorem c5_kml_polygon_3d_witness :
    (_add_kml_polygon_3d exGroundAirspace exTriangle "#2196f3" = some (.polygon
      ⟨1, (_altitude_to_kml exGroundAirspace.upper_bound).1,
        _hex_to_kml_color "#2196f3",
        _ring_with_altitude (ringClose (kmlRing2d exTriangle))
          (_altitude_to_kml exGroundAirspace.upper_bound).2⟩)) ∧
    (∃ faces, _add_kml_polygon_3d exElevatedAirspace exTriangle "#2196f3" =
        some (.multi faces) ∧
      faces.length = 2 + (_iter_edges (ringClose (kmlRing2d exTriangle))).length ∧
      ∀ w ∈ faces.drop 2,
        w.coords.length = 5 ∧ w.coords.head? = w.coords.getLast?) :=
  ⟨(c5_kml_polygon_3d exGroundAirspace exTriangle "#2196f3" (by decide)).1 (by decide),
   (c5_kml_polygon_3d exElevatedAirspace exTriangle "#2196f3" (by decide)).2
     (by decide)⟩

/-- C4 counterexample: for a circle of radius 1 nm centered at (0,0), the
first generated vertex is `(center_lng, center_lat + radius_deg)` — the code
adds the cosine term to the latitude — not the claimed
`(center_lng + radius_deg, center_lat)`, and the two points differ. -/
theorem c4_counterexample :
    firstVertex (_process_circle_geometry exTrig ⟨[0, 0], 1⟩) =
      some (0, 1 * 1852 / 111320) ∧
    firstVertex (_process_circle_geometry exTrig ⟨[0, 0], 1⟩) ≠
      some (1 * 1852 / 111320, 0) ∧
    (1 * 1852 / 111320 : ℚ) ≠ 0 := by
  have hfv : firstVertex (_process_circle_geometry exTrig ⟨[0, 0], 1⟩) =
      (circlePoints exTrig 0 0 (nautical_miles_to_meters 1 / 111320) ++
        [(circlePoints exTrig 0 0 (nautical_miles_to_meters 1 / 111320)).headI]).head? :=
    rfl
  have hhead :=
    circlePoints_head exTrig 0 0 (nautical_miles_to_meters 1 / 111320) rfl rfl
  rw [hfv, head?_append_left _ _ _ hhead]
  refine ⟨?_, ?_, ?_⟩
  · norm_num [nautical_miles_to_meters]
  · simp only [ne_eq, Option.some.injEq, Prod.mk.injEq, not_and]
    intro h0
    exfalso
    norm_num [nautical_miles_to_meters] at h0
  · norm_num

/-- C4 (amended): for a circle of radius 1 nm centered at (0,0), under the
facts `cos 0 = 1` and `sin 0 = 0` (exact for the host trig), the conversion
yields a polygon ring of 37 points whose first vertex is
`(center_lng, center_lat + radius_deg)` with
`radius_deg = radius_nm × 1852 / 111320`, and whose 37th (closing) point
equals the 1st. -/
theorem c4_circle_first_vertex (t : Trig)
    (hcos : t.cos 0 = 1) (hsin : t.sin 0 = 0) :
    ∃ ring, _process_circle_geometry t ⟨[0, 0], 1⟩ = .ok (some (.polygon ring)) ∧
      ring.head? = some (0, 1 * 1852 / 111320) ∧
      ring.length = 37 ∧
      ring.getLast? = ring.head? := by
  have hhead :=
    circlePoints_head t 0 0 (nautical_miles_to_meters 1 / 111320) hcos hsin
  refine ⟨circlePoints t 0 0 (nautical_miles_to_meters 1 / 111320) ++
    [(circlePoints t 0 0 (nautical_miles_to_meters 1 / 111320)).headI],
    rfl, ?_, ?_, ?_⟩
  · rw [head?_append_left _ _ _ hhead]
    norm_num [nautical_miles_to_meters]
  · simp [circlePoints_length]
  · rw [head?_append_left _ _ _ hhead]
    rw [headI_of_head? _ _ hhead]
    simp

/-- C4 witness: the amended theorem at the constant trig instance (which
satisfies `cos 0 = 1` and `sin 0 = 0`). -/
theorem c4_circle_first_vertex_witness :
    ∃ ring, _process_circle_geometry exTrig ⟨[0, 0], 1⟩ =
        .ok (some (.polygon ring)) ∧
      ring.head? = some (0, 1 * 1852 / 111320) ∧
      ring.length = 37 ∧
      ring.getLast? = ring.head? :=
  c4_circle_first_vertex exTrig rfl rfl

end AirspaceViewer
